import Mathlib

/-!
Shallow embedding of `crates/bevy_log/src/lib.rs` from the bevy repository.

The module configures process-wide logging: a `LogSettings` resource holding a
filter pattern, a minimum severity level and a shared runtime-mutable message
prefix behind an `Arc<RwLock<String>>`; a writer method `set_dynamic_prefix`;
a custom field formatter (the `format::debug_fn` closure in `LogPlugin::build`)
that prepends the shared prefix to the primary "message" field; the computation
of the default filter expression; the `EnvFilter` override/fallback chain; and
the one-shot installation of the global subscriber.

Conventions of the embedding:
- The `Arc<RwLock<String>>` cell becomes `RwLockString`, a record of the stored
  string plus a `poisoned` flag modelling the std `RwLock` poison state left by
  a panicking writer. `read()/write().expect(msg)` become `Except`-valued
  operations that fail with the source's panic message when the lock is
  poisoned.
- Panics (`expect`, `unwrap`) become `Except.error` carrying the diagnostic.
- The formatter's `{:?}` debug formatting of a field value is external to this
  module; a field value enters the embedding as its already-formatted string.
-/

namespace BevyLog

/-- Severity levels of the tracing framework, ordered
TRACE < DEBUG < INFO < WARN < ERROR, as used by the `level` field of
`LogSettings` (`tracing::Level`). -/
inductive Level
| TRACE
| DEBUG
| INFO
| WARN
| ERROR
deriving DecidableEq

/-- Display name of a severity level, mirroring the `fmt::Display`
implementation of `tracing::Level` used by
`format!("{},{}", settings.level, settings.filter)` in `LogPlugin::build`. -/
def Level.display : Level → String
| Level.TRACE => "TRACE"
| Level.DEBUG => "DEBUG"
| Level.INFO => "INFO"
| Level.WARN => "WARN"
| Level.ERROR => "ERROR"

/-- The shared string cell `Arc<RwLock<String>>` held in the `dynamic_prefix`
field of `LogSettings`. `value` is the stored string; `poisoned` models the
std `RwLock` poison state left behind by a writer that panicked while holding
the lock. -/
structure RwLockString where
  value : String
  poisoned : Bool
deriving DecidableEq

/-- `cell.read().expect(msg)`: return the stored string, or fail with the
caller-supplied panic message when the lock is poisoned. -/
def RwLockString.readExpect (c : RwLockString) (msg : String) : Except String String :=
  if c.poisoned then Except.error msg else Except.ok c.value

/-- `*cell.write().expect(msg) = v`: replace the stored string, or fail with
the caller-supplied panic message when the lock is poisoned. -/
def RwLockString.writeExpect (c : RwLockString) (msg v : String) :
    Except String RwLockString :=
  if c.poisoned then Except.error msg else Except.ok { c with value := v }

/-- The `LogSettings` resource of `bevy_log`: an `EnvFilter`-format pattern,
a minimum severity level, and the shared cell embedding the source's
`dynamic_prefix : Arc<RwLock<String>>` field. -/
structure LogSettings where
  filter : String
  level : Level
  dynPre : RwLockString
deriving DecidableEq

/-- `impl Default for LogSettings`: filter `"wgpu=error"`, level `INFO`, and a
freshly created cell holding the empty string. -/
def LogSettings.default : LogSettings :=
  { filter := "wgpu=error"
    level := Level.INFO
    dynPre := { value := "", poisoned := false } }

/-- `LogSettings::set_dynamic_prefix(msg)`: when `msg` is nonempty push one
space onto it, then store it through the lock with
`.write().expect("dynamic_prefix log poisoned")`. -/
def LogSettings.setDynPre (self : LogSettings) (msg : String) :
    Except String LogSettings :=
  let msg2 := if msg.length > 0 then msg.push ' ' else msg
  match self.dynPre.writeExpect "dynamic_prefix log poisoned" msg2 with
  | Except.ok c => Except.ok { self with dynPre := c }
  | Except.error e => Except.error e

/-- The `format::debug_fn` closure installed by `LogPlugin::build`: for the
field named `"message"` it writes `"{}{:?}"` of the cell contents (read with
`.read().expect("extra lock poisoned")`) and the value; every other field is
written as `"{}={:?}"` of its name and value. `value` is the already
debug-formatted field value. -/
def formatField (c : RwLockString) (fieldName value : String) :
    Except String String :=
  if fieldName == "message" then
    match c.readExpect "extra lock poisoned" with
    | Except.ok p => Except.ok (p ++ value)
    | Except.error e => Except.error e
  else
    Except.ok (fieldName ++ "=" ++ value)

/-- The computation
`format!("{},{}", settings.level, settings.filter)` in `LogPlugin::build`,
producing the default filter expression. -/
def default_filter (settings : LogSettings) : String :=
  settings.level.display ++ "," ++ settings.filter

/-- Abstract representation of a successfully parsed
`tracing_subscriber::EnvFilter`; the parser itself is external to this
repository, so a parsed filter is identified with its directive string. -/
structure EnvFilter where
  directives : String
deriving DecidableEq

/-- The filter-layer construction in `LogPlugin::build`:
`EnvFilter::try_from_default_env().or_else(|_| EnvFilter::try_new(&default_filter)).unwrap()`.
`envResult` is the outcome of parsing the environment override (`none` when the
variable is absent or its contents are invalid), `tryNew` is the external
parser applied to the computed default expression `d`, and `unwrap` of a failed
chain is a panic, embedded as `Except.error`. -/
def buildFilterLayer (envResult : Option EnvFilter)
    (tryNew : String → Option EnvFilter) (d : String) : Except String EnvFilter :=
  match envResult with
  | some f => Except.ok f
  | none =>
    match tryNew d with
    | some f => Except.ok f
    | none => Except.error "called Result::unwrap() on an Err value"

/-- Modelled from the spec: the process-global subscriber slot manipulated by
`tracing::subscriber::set_global_default`, whose implementation lives in the
external tracing crate. Exactly two states, uninstalled and installed, with no
rollback. -/
inductive InstallState (α : Type)
| uninstalled : InstallState α
| installed : α → InstallState α
deriving DecidableEq

/-- The diagnostic attached by `.expect(...)` to a failed
`set_global_default` call in `LogPlugin::build` (punctuation lightly
normalised). -/
def installErrMsg : String :=
  "Could not set global default tracing subscriber. If you have already set up a tracing subscriber, please disable LogPlugin from Bevy DefaultPlugins"

/-- Modelled from the spec: `set_global_default(subscriber)` followed by the
`.expect(installErrMsg)` in `LogPlugin::build`. From the uninstalled state the
sink is installed and the call succeeds; from the installed state the call
fails fatally with the diagnostic and the first sink stays in place. -/
def setGlobalDefault {α : Type} (st : InstallState α) (s : α) :
    InstallState α × Except String Unit :=
  match st with
  | InstallState.uninstalled => (InstallState.installed s, Except.ok ())
  | InstallState.installed s0 => (InstallState.installed s0, Except.error installErrMsg)

/-- Pushing a space onto a string appends exactly one space character. -/
theorem push_eq_append_space (s : String) : s.push ' ' = s ++ " " := rfl

/-- A string has positive length exactly when it is not the empty string. -/
theorem length_pos_iff_ne (s : String) : 0 < s.length ↔ s ≠ "" := by
  cases s with
  | mk data =>
    cases data with
    | nil => simp [String.length]
    | cons c cs =>
      have h1 : 0 < String.length ⟨c :: cs⟩ := by simp [String.length]
      have h2 : (⟨c :: cs⟩ : String) ≠ "" := by
        intro h
        exact absurd (congrArg String.data h) (by simp)
      exact ⟨fun _ => h2, fun _ => h1⟩

/-- Unfolding of `setDynPre` on an unpoisoned cell: the write succeeds and
replaces only the stored string. -/
theorem setDynPre_ok (settings : LogSettings) (msg : String)
    (h : settings.dynPre.poisoned = false) :
    settings.setDynPre msg =
      Except.ok { settings with dynPre :=
        { settings.dynPre with value := if msg.length > 0 then msg.push ' ' else msg } } := by
  simp [LogSettings.setDynPre, RwLockString.writeExpect, h]

/-- Unfolding of `setDynPre` on a poisoned cell: the write fails with the
source's panic message. -/
theorem setDynPre_poisoned (settings : LogSettings) (msg : String)
    (h : settings.dynPre.poisoned = true) :
    settings.setDynPre msg = Except.error "dynamic_prefix log poisoned" := by
  simp [LogSettings.setDynPre, RwLockString.writeExpect, h]

/-- Inversion: a successful `setDynPre` call implies the cell was unpoisoned
and determines the resulting settings record. -/
theorem setDynPre_ok_inv (settings s2 : LogSettings) (msg : String)
    (h : settings.setDynPre msg = Except.ok s2) :
    settings.dynPre.poisoned = false ∧
    s2 = { settings with dynPre :=
      { settings.dynPre with value := if msg.length > 0 then msg.push ' ' else msg } } := by
  by_cases hp : settings.dynPre.poisoned = true
  · rw [setDynPre_poisoned settings msg hp] at h
    exact absurd h (by simp)
  · have hp2 : settings.dynPre.poisoned = false := by
      cases hb : settings.dynPre.poisoned
      · rfl
      · exact absurd hb hp
    rw [setDynPre_ok settings msg hp2] at h
    exact ⟨hp2, (Except.ok.injEq _ _ ▸ h.symm).symm ▸ rfl⟩

/-- Claim C1: after `set_dynamic_prefix s` succeeds, a read of the shared cell
returns `s` with exactly one space appended when `s` is nonempty, and the
empty string when `s` is empty. -/
theorem c1_set_then_read (settings s2 : LogSettings) (s : String)
    (hok : settings.setDynPre s = Except.ok s2) :
    s2.dynPre.readExpect "extra lock poisoned" =
      Except.ok (if s = "" then "" else s ++ " ") := by
  obtain ⟨hp, h2⟩ := setDynPre_ok_inv settings s2 s hok
  subst h2
  by_cases hs : s = ""
  · subst hs
    simp [RwLockString.readExpect, hp]
  · have hlen : 0 < s.length := (length_pos_iff_ne s).2 hs
    simp [RwLockString.readExpect, hp, hs, hlen, push_eq_append_space]

/-- Witness for C1 at the concrete write "REQ-42". -/
theorem c1_set_then_read_witness :
    RwLockString.readExpect ⟨"REQ-42 ", false⟩ "extra lock poisoned" =
      Except.ok (if "REQ-42" = "" then "" else "REQ-42" ++ " ") :=
  c1_set_then_read LogSettings.default
    ⟨"wgpu=error", Level.INFO, ⟨"REQ-42 ", false⟩⟩ "REQ-42" rfl

/-- Claim C2: for a field named "message" the formatter emits exactly the
current cell contents immediately followed by the formatted value, with no
additional separator. -/
theorem c2_message_field (c : RwLockString) (value : String)
    (h : c.poisoned = false) :
    formatField c "message" value = Except.ok (c.value ++ value) := by
  simp [formatField, RwLockString.readExpect, h]

/-- Witness for C2 with prefix "REQ-42 " and message "hello". -/
theorem c2_message_field_witness :
    formatField ⟨"REQ-42 ", false⟩ "message" "hello" =
      Except.ok ("REQ-42 " ++ "hello") :=
  c2_message_field ⟨"REQ-42 ", false⟩ "hello" rfl

/-- Claim C3: the computed default filter expression is the severity level's
display name, a comma, then the filter pattern; with severity WARN and filter
pattern "mylib=error" it is exactly "WARN,mylib=error". -/
theorem c3_default_filter_expr :
    (∀ settings : LogSettings,
      default_filter settings = settings.level.display ++ "," ++ settings.filter) ∧
    (∀ c : RwLockString,
      default_filter { filter := "mylib=error", level := Level.WARN, dynPre := c } =
        "WARN,mylib=error") :=
  ⟨fun _ => rfl, fun _ => rfl⟩

/-- Claim C4: the filter layer is built from the environment override when it
parses; otherwise from the computed default expression; and when both fail the
assembly panics (the unwrap diagnostic) instead of installing a degraded
filter. -/
theorem c4_filter_precedence :
    (∀ (f : EnvFilter) (tn : String → Option EnvFilter) (d : String),
      buildFilterLayer (some f) tn d = Except.ok f) ∧
    (∀ (tn : String → Option EnvFilter) (d : String) (f : EnvFilter),
      tn d = some f → buildFilterLayer none tn d = Except.ok f) ∧
    (∀ (tn : String → Option EnvFilter) (d : String),
      tn d = none →
        buildFilterLayer none tn d =
          Except.error "called Result::unwrap() on an Err value") := by
  refine ⟨fun f tn d => rfl, fun tn d f h => ?_, fun tn d h => ?_⟩ <;>
    simp [buildFilterLayer, h]

/-- Witness for C4: override wins; fallback used when the override is absent;
both failing is a panic. -/
theorem c4_filter_precedence_witness :
    buildFilterLayer (some ⟨"override"⟩) (fun _ => none) "WARN,wgpu=error" =
      Except.ok ⟨"override"⟩ ∧
    buildFilterLayer none (fun s => some ⟨s⟩) "WARN,wgpu=error" =
      Except.ok ⟨"WARN,wgpu=error"⟩ ∧
    buildFilterLayer none (fun _ => none) "%%%" =
      Except.error "called Result::unwrap() on an Err value" :=
  ⟨c4_filter_precedence.1 ⟨"override"⟩ (fun _ => none) "WARN,wgpu=error",
   c4_filter_precedence.2.1 (fun s => some ⟨s⟩) "WARN,wgpu=error" ⟨"WARN,wgpu=error"⟩ rfl,
   c4_filter_precedence.2.2 (fun _ => none) "%%%" rfl⟩

/-- Claim C5: after one successful install of the global sink, a second install
call fails fatally with the descriptive diagnostic and does not replace the
first installed sink. -/
theorem c5_install_once (s1 s2 : EnvFilter) :
    setGlobalDefault (InstallState.uninstalled : InstallState EnvFilter) s1 =
      (InstallState.installed s1, Except.ok ()) ∧
    setGlobalDefault (InstallState.installed s1) s2 =
      (InstallState.installed s1, Except.error installErrMsg) :=
  ⟨rfl, rfl⟩

/-- Claim C6: once the cell's lock is poisoned, both the write operation and
the formatter's read fail with a panic instead of returning data. -/
theorem c6_poisoned_access_panics (settings : LogSettings) (msg value : String)
    (h : settings.dynPre.poisoned = true) :
    settings.setDynPre msg = Except.error "dynamic_prefix log poisoned" ∧
    formatField settings.dynPre "message" value = Except.error "extra lock poisoned" := by
  refine ⟨setDynPre_poisoned settings msg h, ?_⟩
  simp [formatField, RwLockString.readExpect, h]

/-- Witness for C6 on a concretely poisoned cell. -/
theorem c6_poisoned_access_panics_witness :
    LogSettings.setDynPre ⟨"wgpu=error", Level.INFO, ⟨"x", true⟩⟩ "a" =
      Except.error "dynamic_prefix log poisoned" ∧
    formatField ⟨"x", true⟩ "message" "v" = Except.error "extra lock poisoned" :=
  c6_poisoned_access_panics ⟨"wgpu=error", Level.INFO, ⟨"x", true⟩⟩ "a" "v" rfl

/-- Claim C7: writing the same nonempty value twice in sequence leaves the
settings in the same state as writing it once. -/
theorem c7_idempotent (settings s2 : LogSettings) (msg : String)
    (_hne : msg ≠ "") (h1 : settings.setDynPre msg = Except.ok s2) :
    s2.setDynPre msg = Except.ok s2 := by
  obtain ⟨hp, h2⟩ := setDynPre_ok_inv settings s2 msg h1
  subst h2
  exact setDynPre_ok _ msg hp

/-- Witness for C7 at the concrete value "REQ-42". -/
theorem c7_idempotent_witness :
    LogSettings.setDynPre ⟨"wgpu=error", Level.INFO, ⟨"REQ-42 ", false⟩⟩ "REQ-42" =
      Except.ok ⟨"wgpu=error", Level.INFO, ⟨"REQ-42 ", false⟩⟩ :=
  c7_idempotent LogSettings.default
    ⟨"wgpu=error", Level.INFO, ⟨"REQ-42 ", false⟩⟩ "REQ-42" (by decide) rfl

/-- Claim C8: a field whose name is not "message" is rendered as the name, an
equals sign, then the formatted value; the cell contents never influence the
output (the statement holds for every cell, poisoned or not). -/
theorem c8_other_fields (c : RwLockString) (n v : String) (h : n ≠ "message") :
    formatField c n v = Except.ok (n ++ "=" ++ v) := by
  simp [formatField, h]

/-- Witness for C8 on the field foo=7. -/
theorem c8_other_fields_witness :
    formatField ⟨"REQ-42 ", false⟩ "foo" "7" = Except.ok ("foo" ++ "=" ++ "7") :=
  c8_other_fields ⟨"REQ-42 ", false⟩ "foo" "7" (by decide)

/-- Claim C9: the defaulted settings have filter pattern "wgpu=error", level
INFO, and an unpoisoned cell holding the empty string. -/
theorem c9_default_settings :
    LogSettings.default.filter = "wgpu=error" ∧
    LogSettings.default.level = Level.INFO ∧
    LogSettings.default.dynPre = ⟨"", false⟩ :=
  ⟨rfl, rfl, rfl⟩

/-- Claim C10: a successful `set_dynamic_prefix` call changes only the string
stored in the cell; filter, level and even the poison flag are unchanged, and
the result is the input record with only the cell's value replaced. -/
theorem c10_frame (settings s2 : LogSettings) (msg : String)
    (h : settings.setDynPre msg = Except.ok s2) :
    s2.filter = settings.filter ∧ s2.level = settings.level ∧
    s2.dynPre.poisoned = settings.dynPre.poisoned ∧
    s2 = { settings with dynPre :=
      { settings.dynPre with value := s2.dynPre.value } } := by
  obtain ⟨hp, h2⟩ := setDynPre_ok_inv settings s2 msg h
  subst h2
  exact ⟨rfl, rfl, rfl, rfl⟩

/-- Witness for C10 at the concrete write "a" on the default settings. -/
theorem c10_frame_witness :
    LogSettings.filter ⟨"wgpu=error", Level.INFO, ⟨"a ", false⟩⟩ =
      LogSettings.default.filter ∧
    LogSettings.level ⟨"wgpu=error", Level.INFO, ⟨"a ", false⟩⟩ =
      LogSettings.default.level ∧
    RwLockString.poisoned (LogSettings.dynPre ⟨"wgpu=error", Level.INFO, ⟨"a ", false⟩⟩) =
      RwLockString.poisoned LogSettings.default.dynPre ∧
    (⟨"wgpu=error", Level.INFO, ⟨"a ", false⟩⟩ : LogSettings) =
      { LogSettings.default with dynPre :=
        { LogSettings.default.dynPre with
          value := RwLockString.value
            (LogSettings.dynPre ⟨"wgpu=error", Level.INFO, ⟨"a ", false⟩⟩) } } :=
  c10_frame LogSettings.default ⟨"wgpu=error", Level.INFO, ⟨"a ", false⟩⟩ "a" rfl

end BevyLog
